import Mathlib

/-!
Shallow embedding of the signal-generation and risk/position-lifecycle engine
of the bot_bit trading bot, together with theorems checking the
natural-language specification against it.

Conventions of the embedding:
* Python floats are modelled as rationals (`ℚ`); all the guarded comparisons
  of the source are on finite decimal constants, so no precision is lost.
* Python dicts with optional keys (the indicator snapshot, the nested config)
  are modelled as structures of `Option` fields; every `dict.get(k, d)` in the
  source becomes `field.getD d` with the same per-call-site default.
* Wall-clock time is passed explicitly: `datetime.now()` becomes a `now : ℚ`
  (seconds) or `today : ℤ` (day number) argument.
* Mutating methods become functions from state to state (plus their returned
  value).
-/

namespace BotBit

/-- Side of a futures position (`models/data_classes.py`, `PositionSide`). -/
inductive PositionSide where
  | long
  | short
deriving DecidableEq, Repr

/-- Strength tier of a trading signal (`models/data_classes.py`, `SignalStrength`). -/
inductive SignalStrength where
  | weak
  | neutral
  | strong
  | very_strong
deriving DecidableEq, Repr

/-- Action carried by a trading signal (the `action` string field of
`TradingSignal` in `models/data_classes.py`). -/
inductive Action where
  | long
  | short
  | hold
  | close_long
  | close_short
deriving DecidableEq, Repr

/-- The four-way (plus neutral) EMA trend label computed by
`calculate_technical_indicators` (`ema_trend` key). -/
inductive EmaTrend where
  | strong_bullish
  | bullish
  | bearish
  | strong_bearish
  | neutral
deriving DecidableEq, Repr

/-- Indicator snapshot: the keys of the Python `indicators` dict that the
signal scorer, the contradiction filter and the regime filter read
(`analysis/technical_analysis.py`).  A missing dict key is `none`.
`extra_keys` counts the remaining keys of the dict (`current_price`,
`ema_short`, `bb_upper`, ...) that are present but never read by the
embedded logic; it only contributes to the dict length `len(indicators)`. -/
structure Indicators where
  rsi : Option ℚ
  rsi_avg_3 : Option ℚ
  rsi_rising : Option Bool
  macd_histogram : Option ℚ
  macd_histogram_avg_3 : Option ℚ
  macd_histogram_rising : Option Bool
  macd_bullish : Option Bool
  macd_bearish : Option Bool
  macd_weak_bullish : Option Bool
  macd_weak_bearish : Option Bool
  ema_trend : Option EmaTrend
  price_above_ema_short : Option Bool
  bb_oversold : Option Bool
  bb_overbought : Option Bool
  bb_position : Option ℚ
  bb_width_pct : Option ℚ
  momentum : Option ℚ
  momentum_bullish : Option Bool
  momentum_bearish : Option Bool
  momentum_strong : Option Bool
  extra_keys : ℕ
deriving DecidableEq, Repr

/-- One when the optional key is present, zero otherwise. -/
def keyCount {α : Type} (o : Option α) : ℕ :=
  if o.isSome then 1 else 0

/-- The Python `len(indicators)`: number of keys present in the snapshot. -/
def Indicators.numKeys (i : Indicators) : ℕ :=
  i.extra_keys + keyCount i.rsi + keyCount i.rsi_avg_3 + keyCount i.rsi_rising +
    keyCount i.macd_histogram + keyCount i.macd_histogram_avg_3 +
    keyCount i.macd_histogram_rising + keyCount i.macd_bullish +
    keyCount i.macd_bearish + keyCount i.macd_weak_bullish +
    keyCount i.macd_weak_bearish + keyCount i.ema_trend +
    keyCount i.price_above_ema_short + keyCount i.bb_oversold +
    keyCount i.bb_overbought + keyCount i.bb_position +
    keyCount i.bb_width_pct + keyCount i.momentum +
    keyCount i.momentum_bullish + keyCount i.momentum_bearish +
    keyCount i.momentum_strong

/-- Configuration values read by `TechnicalAnalysis` through `_get_config`,
already resolved against their call-site defaults, except for
`ai_futures.filters.contradictory_signals_check`, which is read at two sites
with different defaults (`False` at the decision, `True` inside
`_check_contradictory_signals`) and is therefore kept as the raw optional
key. -/
structure TAConfig where
  min_score_long : ℚ
  min_score_short : ℚ
  min_score_difference : ℚ
  contradictory_signals_check : Option Bool
  initial_wait_seconds : ℚ
  cooldown_between_trades_seconds : ℚ
deriving DecidableEq, Repr

/-- The defaults of `generate_trading_signal`: min scores 4.0, margin 1.0,
warm-up 30 s, cooldown 180 s, contradiction-filter key absent. -/
def defaultTAConfig : TAConfig :=
  ⟨4, 4, 1, none, 30, 180⟩

/-- Reason attached to a signal, abstracting the formatted reason strings of
the source by which branch produced them (score payloads kept where the
string interpolates them). -/
inductive Reason where
  | insufficient_indicators
  | warmup_period
  | cooldown_active
  | critical_contradictions
  | entry_reasons
  | waiting_stronger (long_score short_score : ℚ)
  | exit_reasons
  | holding_position (exit_score : ℚ)
  | contra_trend
  | low_confidence_high_volatility
  | contra_breakout
  | breakout_confirmation (original : Reason)
  | ranging_reduced (original : Reason)
  | free (text : String)
deriving DecidableEq, Repr

/-- A trading signal (`models/data_classes.py`, `TradingSignal`), without the
snapshot and timestamp payloads, which the embedded logic never reads back. -/
structure Signal where
  action : Action
  strength : SignalStrength
  confidence : ℚ
  reason : Reason
deriving DecidableEq, Repr

/-- Internal timers of `TechnicalAnalysis`: construction-relative warm-up and
cooldown state plus the emitted-signal counter. -/
structure ScorerState where
  first_analysis_time : Option ℚ
  last_signal_time : Option ℚ
  signal_count : ℕ
deriving DecidableEq, Repr

/-- RSI tier of the long score (`generate_trading_signal`, LONG analysis). -/
def rsi_points_long (ind : Indicators) : ℚ :=
  let rsi := ind.rsi.getD 50
  let rsi_avg := ind.rsi_avg_3.getD 50
  if rsi < 20 ∧ rsi_avg < 25 then 5
  else if rsi < 25 ∧ rsi_avg < 30 then 4
  else if rsi < 30 ∧ ind.rsi_rising.getD false then 3
  else if rsi < 35 then 2
  else if rsi < 45 then 1
  else 0

/-- MACD tier of the long score. -/
def macd_points_long (ind : Indicators) : ℚ :=
  let macd_hist := ind.macd_histogram.getD 0
  if ind.macd_bullish.getD false then
    if ind.macd_histogram_rising.getD false then
      if ind.macd_histogram_avg_3.getD 0 > 2/100 then 4 else 3
    else 2
  else if ind.macd_weak_bullish.getD false ∧ macd_hist > -(5/100) then 1
  else 0

/-- EMA tier of the long score. -/
def ema_points_long (ind : Indicators) : ℚ :=
  let trend := ind.ema_trend.getD EmaTrend.neutral
  if trend = EmaTrend.strong_bullish then 4
  else if trend = EmaTrend.bullish then 3
  else if ind.price_above_ema_short.getD false then 1
  else 0

/-- Bollinger tier of the long score. -/
def bb_points_long (ind : Indicators) : ℚ :=
  if ind.bb_oversold.getD false then
    if ind.bb_width_pct.getD 0 > 5/2 then 3 else 2
  else if ind.bb_position.getD (1/2) < 1/4 then 1
  else 0

/-- Momentum tier of the long score. -/
def momentum_points_long (ind : Indicators) : ℚ :=
  let momentum := ind.momentum.getD 0
  if ind.momentum_bullish.getD false ∧ ind.momentum_strong.getD false then 3
  else if ind.momentum_bullish.getD false then 2
  else if momentum > -(1/2) then 1
  else 0

/-- RSI tier of the short score. -/
def rsi_points_short (ind : Indicators) : ℚ :=
  let rsi := ind.rsi.getD 50
  let rsi_avg := ind.rsi_avg_3.getD 50
  if rsi > 80 ∧ rsi_avg > 75 then 5
  else if rsi > 75 ∧ rsi_avg > 70 then 4
  else if rsi > 70 ∧ ¬ ind.rsi_rising.getD true then 3
  else if rsi > 65 then 2
  else if rsi > 55 then 1
  else 0

/-- MACD tier of the short score. -/
def macd_points_short (ind : Indicators) : ℚ :=
  let macd_hist := ind.macd_histogram.getD 0
  if ind.macd_bearish.getD false then
    if ¬ ind.macd_histogram_rising.getD true then
      if ind.macd_histogram_avg_3.getD 0 < -(2/100) then 4 else 3
    else 2
  else if ind.macd_weak_bearish.getD false ∧ macd_hist < 5/100 then 1
  else 0

/-- EMA tier of the short score. -/
def ema_points_short (ind : Indicators) : ℚ :=
  let trend := ind.ema_trend.getD EmaTrend.neutral
  if trend = EmaTrend.strong_bearish then 4
  else if trend = EmaTrend.bearish then 3
  else if ¬ ind.price_above_ema_short.getD true then 1
  else 0

/-- Bollinger tier of the short score. -/
def bb_points_short (ind : Indicators) : ℚ :=
  if ind.bb_overbought.getD false then
    if ind.bb_width_pct.getD 0 > 5/2 then 3 else 2
  else if ind.bb_position.getD (1/2) > 3/4 then 1
  else 0

/-- Momentum tier of the short score. -/
def momentum_points_short (ind : Indicators) : ℚ :=
  let momentum := ind.momentum.getD 0
  if ind.momentum_bearish.getD false ∧ ind.momentum_strong.getD false then 3
  else if ind.momentum_bearish.getD false then 2
  else if momentum < 1/2 then 1
  else 0

/-- The additive long score of `generate_trading_signal`. -/
def long_score (ind : Indicators) : ℚ :=
  rsi_points_long ind + macd_points_long ind + ema_points_long ind +
    bb_points_long ind + momentum_points_long ind

/-- The additive short score of `generate_trading_signal`. -/
def short_score (ind : Indicators) : ℚ :=
  rsi_points_short ind + macd_points_short ind + ema_points_short ind +
    bb_points_short ind + momentum_points_short ind

/-- The contradiction filter `_check_contradictory_signals`: counts critical
contradictions against the proposed action and rejects at two or more.
Inside the filter the `contradictory_signals_check` key defaults to `True`. -/
def check_contradictory_signals (cfg : TAConfig) (ind : Indicators)
    (action : Action) : Bool :=
  if ¬ cfg.contradictory_signals_check.getD true then false
  else
    let critical : ℕ :=
      if action = Action.long ∨ action = Action.close_short then
        (if ind.macd_bearish.getD false ∧ ind.macd_histogram.getD 0 < -(1/10)
          then 1 else 0) +
        (if ind.rsi.getD 50 > 85 then 1 else 0) +
        (if ind.ema_trend = some EmaTrend.strong_bearish then 1 else 0)
      else if action = Action.short ∨ action = Action.close_long then
        (if ind.macd_bullish.getD false ∧ ind.macd_histogram.getD 0 > 1/10
          then 1 else 0) +
        (if ind.rsi.getD 50 < 15 then 1 else 0) +
        (if ind.ema_trend = some EmaTrend.strong_bullish then 1 else 0)
      else 0
    2 ≤ critical

/-- Strength tier from an entry score (≥12 very strong, ≥8 strong, ≥5
neutral, else weak). -/
def strength_of_score (score : ℚ) : SignalStrength :=
  if score ≥ 12 then SignalStrength.very_strong
  else if score ≥ 8 then SignalStrength.strong
  else if score ≥ 5 then SignalStrength.neutral
  else SignalStrength.weak

/-- Entry confidence `min(0.45 + score*0.08, 0.95)`. -/
def entry_confidence (score : ℚ) : ℚ :=
  min (45/100 + score * (8/100)) (95/100)

/-- The final decision block of `generate_trading_signal` (lines 462-564),
factored over the two computed scores: a side wins when its score meets its
minimum and exceeds the other side by more than the margin; the optional
contradiction filter (off by default: the key read with default `False`) may
still force `hold`. -/
def entry_decision (cfg : TAConfig) (ind : Indicators) (ls ss : ℚ) : Signal :=
  if ls ≥ cfg.min_score_long ∧ ls > ss + cfg.min_score_difference then
    if cfg.contradictory_signals_check.getD false ∧
        check_contradictory_signals cfg ind Action.long then
      ⟨Action.hold, SignalStrength.neutral, 0, Reason.critical_contradictions⟩
    else
      ⟨Action.long, strength_of_score ls, entry_confidence ls,
        Reason.entry_reasons⟩
  else if ss ≥ cfg.min_score_short ∧ ss > ls + cfg.min_score_difference then
    if cfg.contradictory_signals_check.getD false ∧
        check_contradictory_signals cfg ind Action.short then
      ⟨Action.hold, SignalStrength.neutral, 0, Reason.critical_contradictions⟩
    else
      ⟨Action.short, strength_of_score ss, entry_confidence ss,
        Reason.entry_reasons⟩
  else
    ⟨Action.hold, SignalStrength.neutral, 0, Reason.waiting_stronger ls ss⟩

/-- Exit score of `_generate_exit_signal` for the given open-position side. -/
def exit_score (ind : Indicators) (side : PositionSide) : ℚ :=
  let rsi := ind.rsi.getD 50
  let rsi_avg := ind.rsi_avg_3.getD 50
  let bb_pos := ind.bb_position.getD (1/2)
  match side with
  | PositionSide.long =>
    (if rsi > 85 ∧ rsi_avg > 80 then 5
      else if rsi > 80 then 4
      else if rsi > 75 ∧ ¬ ind.rsi_rising.getD true then 3
      else if rsi > 70 then 2 else 0) +
    (if bb_pos > 95/100 then 4
      else if bb_pos > 85/100 then 3
      else if bb_pos > 80/100 then 1 else 0) +
    (if ind.macd_bearish.getD false ∧ ¬ ind.macd_histogram_rising.getD true
      then 3
      else if ind.macd_bearish.getD false then 2 else 0) +
    (if ind.ema_trend.getD EmaTrend.neutral = EmaTrend.strong_bearish then 3
      else if ind.ema_trend.getD EmaTrend.neutral = EmaTrend.bearish then 2
      else 0) +
    (if ind.momentum_bearish.getD false ∧ ind.momentum_strong.getD false
      then 3
      else if ind.momentum_bearish.getD false then 2 else 0)
  | PositionSide.short =>
    (if rsi < 15 ∧ rsi_avg < 20 then 5
      else if rsi < 20 then 4
      else if rsi < 25 ∧ ind.rsi_rising.getD false then 3
      else if rsi < 30 then 2 else 0) +
    (if bb_pos < 5/100 then 4
      else if bb_pos < 15/100 then 3
      else if bb_pos < 20/100 then 1 else 0) +
    (if ind.macd_bullish.getD false ∧ ind.macd_histogram_rising.getD false
      then 3
      else if ind.macd_bullish.getD false then 2 else 0) +
    (if ind.ema_trend.getD EmaTrend.neutral = EmaTrend.strong_bullish then 3
      else if ind.ema_trend.getD EmaTrend.neutral = EmaTrend.bullish then 2
      else 0) +
    (if ind.momentum_bullish.getD false ∧ ind.momentum_strong.getD false
      then 3
      else if ind.momentum_bullish.getD false then 2 else 0)

/-- Exit-signal generation `_generate_exit_signal`: propose a close once the
exit score reaches the minimum 3, else keep holding. -/
def generate_exit_signal (ind : Indicators) (side : PositionSide) : Signal :=
  let score := exit_score ind side
  if score ≥ 3 then
    let strength :=
      if score ≥ 8 then SignalStrength.strong
      else if score ≥ 5 then SignalStrength.neutral
      else SignalStrength.weak
    let action :=
      if side = PositionSide.long then Action.close_long
      else Action.close_short
    ⟨action, strength, min (50/100 + score * (8/100)) (92/100),
      Reason.exit_reasons⟩
  else
    ⟨Action.hold, SignalStrength.neutral, 0, Reason.holding_position score⟩

/-- True while the warm-up window since the first analysis is still open. -/
def warmup_active (cfg : TAConfig) (st : ScorerState) (now : ℚ) : Bool :=
  match st.first_analysis_time with
  | none => false
  | some t => now - t < cfg.initial_wait_seconds

/-- True while the cooldown window since the last emitted signal is open. -/
def cooldown_active (cfg : TAConfig) (st : ScorerState) (now : ℚ) : Bool :=
  match st.last_signal_time with
  | none => false
  | some t => now - t < cfg.cooldown_between_trades_seconds

/-- The entry point `TechnicalAnalysis.generate_trading_signal`, given an
already-computed indicator snapshot: guards (snapshot size, warm-up,
cooldown, open position) and then the scored entry decision.  Emitting a
directional signal bumps the signal counter and the cooldown timer. -/
def generate_trading_signal (cfg : TAConfig) (st : ScorerState) (now : ℚ)
    (ind : Indicators) (pos : Option PositionSide) : Signal × ScorerState :=
  if ind.numKeys < 8 then
    (⟨Action.hold, SignalStrength.neutral, 0, Reason.insufficient_indicators⟩,
      st)
  else if warmup_active cfg st now then
    (⟨Action.hold, SignalStrength.neutral, 0, Reason.warmup_period⟩, st)
  else if cooldown_active cfg st now then
    (⟨Action.hold, SignalStrength.neutral, 0, Reason.cooldown_active⟩, st)
  else
    match pos with
    | some side => (generate_exit_signal ind side, st)
    | none =>
      let sig := entry_decision cfg ind (long_score ind) (short_score ind)
      if sig.action = Action.long ∨ sig.action = Action.short then
        (sig, ⟨st.first_analysis_time, some now, st.signal_count + 1⟩)
      else (sig, st)

/-- Association-list update used to model the Python dict write `d[k] = v`. -/
def alistSet {α : Type} (l : List (String × α)) (k : String) (v : α) :
    List (String × α) :=
  match l with
  | [] => [(k, v)]
  | (k0, v0) :: t => if k0 = k then (k, v) :: t else (k0, v0) :: alistSet t k v

/-- Association-list removal used to model `d.pop(k)` / `del d[k]`. -/
def alistErase {α : Type} (l : List (String × α)) (k : String) :
    List (String × α) :=
  match l with
  | [] => []
  | (k0, v0) :: t => if k0 = k then t else (k0, v0) :: alistErase t k

/-- The `self.statistics` dict of `RiskManager`. -/
structure RiskStatistics where
  daily_trades : ℕ
  total_pnl : ℚ
  win_rate : ℚ
  total_trades : ℕ
  wins : ℕ
  losses : ℕ
  best_trade : ℚ
  worst_trade : ℚ
  consecutive_losses : ℕ
  max_consecutive_losses : ℕ
  daily_loss : ℚ
  current_drawdown : ℚ
  max_drawdown : ℚ
deriving DecidableEq, Repr

/-- The statistics dict as initialised in `RiskManager.__init__`. -/
def initialStatistics : RiskStatistics :=
  ⟨0, 0, 0, 0, 0, 0, 0, 0, 0, 0, 0, 0, 0⟩

/-- Configuration values `RiskManager.__init__` reads through `_get_config`,
resolved against their defaults. -/
structure RiskConfig where
  stop_loss_enabled : Bool
  stop_loss_pct : ℚ
  trailing_enabled : Bool
  trailing_pct : ℚ
  take_profit_enabled : Bool
  take_profit_pct : ℚ
  max_daily_trades : ℕ
  max_daily_loss : ℚ
  max_drawdown_pct : ℚ
  kill_switch_enabled : Bool
  kill_switch_loss_pct : ℚ
  kill_switch_consecutive : ℕ
  initial_balance : ℚ
deriving DecidableEq, Repr

/-- The documented defaults: stop loss 2 % (on), trailing 0.5 % (on), take
profit 3 % (on), 30 trades and 30 USDT loss per day, 10 % max drawdown, kill
switch on at 10 % total loss or 3 consecutive losses, 100 USDT paper
balance. -/
def defaultRiskConfig : RiskConfig :=
  ⟨true, 2, true, 1/2, true, 3, 30, 30, 10, true, 10, 3, 100⟩

/-- The mutable state of a `RiskManager` instance. -/
structure RMState where
  stats : RiskStatistics
  last_reset_date : ℤ
  daily_trade_count : ℕ
  daily_pnl : ℚ
  kill_switch_triggered : Bool
  trailing_stops : List (String × ℚ)
deriving DecidableEq, Repr

/-- State of a freshly constructed `RiskManager` (construction day `d`). -/
def initialRMState (d : ℤ) : RMState :=
  ⟨initialStatistics, d, 0, 0, false, []⟩

/-- A position as consumed by `check_exit_conditions`
(`models/data_classes.py`, `FuturesPosition`; unused payload omitted). -/
structure FuturesPosition where
  symbol : String
  side : PositionSide
  size : ℚ
  entry_price : ℚ
deriving DecidableEq, Repr

/-- A closed-trade record as consumed by `update_statistics`: `trade.get`
reads `pnl` (default 0, kept total here), `symbol` (may be absent) and
`side` (default `''`). -/
structure Trade where
  pnl : ℚ
  symbol : Option String
  side : String
deriving DecidableEq, Repr

/-- Exit reason returned by `check_exit_conditions`, with the interpolated
PnL percentage. -/
inductive ExitReason where
  | stop_loss (pnl_pct : ℚ)
  | trailing_stop (trailing_pnl : ℚ)
  | take_profit (pnl_pct : ℚ)
deriving DecidableEq, Repr

/-- Daily rollover `_reset_daily_stats_if_needed`: on a later wall-clock
date, zero the daily counters (only them) and remember the new date. -/
def reset_daily_stats_if_needed (today : ℤ) (s : RMState) : RMState :=
  if today > s.last_reset_date then
    { s with
      daily_trade_count := 0
      daily_pnl := 0
      stats := { s.stats with daily_trades := 0, daily_loss := 0 }
      last_reset_date := today }
  else s

/-- The side effect `_trigger_kill_switch`. -/
def trigger_kill_switch (s : RMState) : RMState :=
  { s with kill_switch_triggered := true }

/-- Status query `is_kill_switch_active`. -/
def is_kill_switch_active (s : RMState) : Bool :=
  s.kill_switch_triggered

/-- The explicit external reset `reset_kill_switch`. -/
def reset_kill_switch (s : RMState) : RMState :=
  { s with kill_switch_triggered := false }

/-- Risk gate `can_open_position`: after the daily rollover, reject when the
kill switch is set, the daily trade cap is reached, the daily loss cap is
reached, or the consecutive-loss count reaches the kill-switch threshold
(the last branch also triggers the kill switch). -/
def can_open_position (cfg : RiskConfig) (today : ℤ) (s : RMState) :
    Bool × RMState :=
  let s := reset_daily_stats_if_needed today s
  if s.kill_switch_triggered then (false, s)
  else if s.daily_trade_count ≥ cfg.max_daily_trades then (false, s)
  else if |s.daily_pnl| ≥ cfg.max_daily_loss ∧ s.daily_pnl < 0 then (false, s)
  else if s.stats.consecutive_losses ≥ cfg.kill_switch_consecutive then
    (false, trigger_kill_switch s)
  else (true, s)

/-- Trailing-reference update `_update_trailing_stop`: start tracking at the
current price, then move the stored best price only in the favorable
direction (up for long, down for short). -/
def update_trailing_stop (cfg : RiskConfig) (symbol : String)
    (current_price : ℚ) (side : PositionSide) (s : RMState) : RMState :=
  if ¬ cfg.trailing_enabled then s
  else
    match s.trailing_stops.lookup symbol with
    | none =>
      { s with trailing_stops := alistSet s.trailing_stops symbol current_price }
    | some best_price =>
      if side = PositionSide.long then
        if current_price > best_price then
          { s with trailing_stops := alistSet s.trailing_stops symbol current_price }
        else s
      else
        if current_price < best_price then
          { s with trailing_stops := alistSet s.trailing_stops symbol current_price }
        else s

/-- Mandatory-exit check `check_exit_conditions`: stop loss first, then
trailing stop (only for a tracked symbol), then take profit; when nothing
fires, the trailing reference is updated and `None` is returned. -/
def check_exit_conditions (cfg : RiskConfig) (position : FuturesPosition)
    (current_price : ℚ) (s : RMState) : Option ExitReason × RMState :=
  let entry_price := position.entry_price
  let pnl_pct :=
    if position.side = PositionSide.long then
      (current_price - entry_price) / entry_price * 100
    else
      (entry_price - current_price) / entry_price * 100
  if cfg.stop_loss_enabled ∧ pnl_pct ≤ -cfg.stop_loss_pct then
    (some (ExitReason.stop_loss pnl_pct), s)
  else
    let trailing_hit : Option ℚ :=
      if cfg.trailing_enabled then
        match s.trailing_stops.lookup position.symbol with
        | some best_price =>
          let trailing_pnl :=
            if position.side = PositionSide.long then
              (current_price - best_price) / best_price * 100
            else
              (best_price - current_price) / best_price * 100
          if trailing_pnl ≤ -cfg.trailing_pct then some trailing_pnl else none
        | none => none
      else none
    match trailing_hit with
    | some trailing_pnl => (some (ExitReason.trailing_stop trailing_pnl), s)
    | none =>
      if cfg.take_profit_enabled ∧ pnl_pct ≥ cfg.take_profit_pct then
        (some (ExitReason.take_profit pnl_pct), s)
      else
        (none, update_trailing_stop cfg position.symbol current_price
          position.side s)

/-- Kill-switch re-check `_check_kill_switch_conditions` run after every
statistics update: total-loss percentage, consecutive losses, drawdown. -/
def check_kill_switch_conditions (cfg : RiskConfig) (s : RMState) : RMState :=
  if ¬ cfg.kill_switch_enabled ∨ s.kill_switch_triggered then s
  else
    let total_loss_pct := |s.stats.total_pnl| / cfg.initial_balance * 100
    if s.stats.total_pnl < 0 ∧ total_loss_pct ≥ cfg.kill_switch_loss_pct then
      trigger_kill_switch s
    else if s.stats.consecutive_losses ≥ cfg.kill_switch_consecutive then
      trigger_kill_switch s
    else
      let drawdown_pct := s.stats.current_drawdown / cfg.initial_balance * 100
      if drawdown_pct ≥ cfg.max_drawdown_pct then trigger_kill_switch s
      else s

/-- The Python membership test `'close' in trade.get('side', '')` (substring
containment), expressed through `String.splitOn`. -/
def side_mentions_close (side : String) : Bool :=
  (side.splitOn "close").length ≠ 1

/-- Per-closed-trade statistics update `update_statistics`: daily rollover,
counters, best/worst trade, win/loss and consecutive-loss bookkeeping
(`pnl > 0` is a win, anything else a loss), win rate, drawdown, removal of
the trailing reference on a closing trade, then the kill-switch re-check. -/
def update_statistics (cfg : RiskConfig) (today : ℤ) (trade : Trade)
    (s : RMState) : RMState :=
  let s := reset_daily_stats_if_needed today s
  let pnl := trade.pnl
  let daily_trade_count := s.daily_trade_count + 1
  let daily_pnl := s.daily_pnl + pnl
  let st : RiskStatistics := s.stats
  let st : RiskStatistics := { st with
    daily_trades := daily_trade_count
    daily_loss := min 0 daily_pnl
    total_trades := st.total_trades + 1
    total_pnl := st.total_pnl + pnl }
  let st : RiskStatistics := { st with
    best_trade := if pnl > st.best_trade then pnl else st.best_trade
    worst_trade := if pnl < st.worst_trade then pnl else st.worst_trade }
  let st : RiskStatistics :=
    if pnl > 0 then
      { st with wins := st.wins + 1, consecutive_losses := 0 }
    else
      let consecutive := st.consecutive_losses + 1
      { st with
        losses := st.losses + 1
        consecutive_losses := consecutive
        max_consecutive_losses :=
          if consecutive > st.max_consecutive_losses then consecutive
          else st.max_consecutive_losses }
  let st : RiskStatistics :=
    if 0 < st.wins + st.losses then
      { st with win_rate := (st.wins : ℚ) / ((st.wins : ℚ) + (st.losses : ℚ)) * 100 }
    else st
  let st : RiskStatistics :=
    if pnl < 0 then
      let drawdown := st.current_drawdown + |pnl|
      { st with
        current_drawdown := drawdown
        max_drawdown :=
          if drawdown > st.max_drawdown then drawdown else st.max_drawdown }
    else
      { st with current_drawdown := max 0 (st.current_drawdown - pnl) }
  let trailing_stops :=
    match trade.symbol with
    | some sym =>
      if (s.trailing_stops.lookup sym).isSome ∧ side_mentions_close trade.side
      then alistErase s.trailing_stops sym
      else s.trailing_stops
    | none => s.trailing_stops
  let s := { s with
    stats := st
    daily_trade_count := daily_trade_count
    daily_pnl := daily_pnl
    trailing_stops := trailing_stops }
  check_kill_switch_conditions cfg s

/-- An operation of the normal trading cycle acting on the risk state (the
claims about kill-switch persistence quantify over sequences of these). -/
inductive CycleOp where
  | can_open (today : ℤ)
  | update_stats (today : ℤ) (trade : Trade)
  | check_exit (position : FuturesPosition) (price : ℚ)
  | daily_reset (today : ℤ)
deriving DecidableEq, Repr

/-- Interpretation of one cycle operation on the risk state. -/
def applyCycleOp (cfg : RiskConfig) (s : RMState) : CycleOp → RMState
  | CycleOp.can_open today => (can_open_position cfg today s).2
  | CycleOp.update_stats today trade => update_statistics cfg today trade s
  | CycleOp.check_exit position price =>
    (check_exit_conditions cfg position price s).2
  | CycleOp.daily_reset today => reset_daily_stats_if_needed today s

/-- Interpretation of a sequence of cycle operations. -/
def applyCycleOps (cfg : RiskConfig) (ops : List CycleOp) (s : RMState) :
    RMState :=
  ops.foldl (applyCycleOp cfg) s

/-- Market regime labels (`analysis/regime_detection.py`, `MarketRegime`). -/
inductive MarketRegime where
  | trending_up
  | trending_down
  | ranging
  | high_volatility
  | low_volatility
  | breakout_up
  | breakout_down
  | consolidation
deriving DecidableEq, Repr

/-- The part of `RegimeAnalysis` (`analysis/regime_detection.py`) that
`_apply_regime_filters` reads: primary regime, confidence and trend
strength (secondary regimes, levels and recommendations are never read by
the filter). -/
structure RegimeAnalysis where
  primary_regime : MarketRegime
  confidence : ℚ
  trend_strength : ℚ
deriving DecidableEq, Repr

/-- The regime filter `MarketAnalyzer._apply_regime_filters`
(`analysis/market_analyzer.py`): counter-trend rejection in strong trends,
confidence damping/rejection in high volatility, counter-breakout
rejection or damping and aligned-breakout boosting, and confidence
reduction for unsupported mean-reversion signals in ranging or
low-volatility regimes.  `min_confidence` is the resolved value of
`ai_futures.filters.min_confidence` (default 0.55). -/
def apply_regime_filters (min_confidence : ℚ) (signal : Signal)
    (regime : RegimeAnalysis) (ind : Indicators) : Signal :=
  if signal.action = Action.hold then signal
  else if regime.primary_regime = MarketRegime.trending_up ∨
      regime.primary_regime = MarketRegime.trending_down then
    if regime.primary_regime = MarketRegime.trending_up ∧
        signal.action = Action.short then
      if regime.trend_strength > 3/5 then
        { signal with action := Action.hold, reason := Reason.contra_trend }
      else signal
    else if regime.primary_regime = MarketRegime.trending_down ∧
        signal.action = Action.long then
      if regime.trend_strength > 3/5 then
        { signal with action := Action.hold, reason := Reason.contra_trend }
      else signal
    else signal
  else if regime.primary_regime = MarketRegime.high_volatility then
    let confidence := signal.confidence * (4/5)
    if confidence < min_confidence * (9/10) then
      { signal with
        action := Action.hold
        confidence := confidence
        reason := Reason.low_confidence_high_volatility }
    else { signal with confidence := confidence }
  else if regime.primary_regime = MarketRegime.breakout_up ∨
      regime.primary_regime = MarketRegime.breakout_down then
    if regime.primary_regime = MarketRegime.breakout_up ∧
        signal.action = Action.short then
      if regime.confidence > 4/5 then
        { signal with action := Action.hold, reason := Reason.contra_breakout }
      else { signal with confidence := signal.confidence * (7/10) }
    else if regime.primary_regime = MarketRegime.breakout_down ∧
        signal.action = Action.long then
      if regime.confidence > 4/5 then
        { signal with action := Action.hold, reason := Reason.contra_breakout }
      else { signal with confidence := signal.confidence * (7/10) }
    else if (regime.primary_regime = MarketRegime.breakout_up ∧
        signal.action = Action.long) ∨
        (regime.primary_regime = MarketRegime.breakout_down ∧
        signal.action = Action.short) then
      { signal with
        confidence := min (95/100) (signal.confidence * (12/10))
        reason := Reason.breakout_confirmation signal.reason }
    else signal
  else if regime.primary_regime = MarketRegime.ranging ∨
      regime.primary_regime = MarketRegime.low_volatility then
    let rsi := ind.rsi.getD 50
    let bb_position := ind.bb_position.getD (1/2)
    if signal.action = Action.long ∧ ¬ (rsi < 35 ∨ bb_position < 1/4) then
      { signal with
        confidence := signal.confidence * (4/5)
        reason := Reason.ranging_reduced signal.reason }
    else if signal.action = Action.short ∧ ¬ (rsi > 65 ∨ bb_position > 3/4)
    then
      { signal with
        confidence := signal.confidence * (4/5)
        reason := Reason.ranging_reduced signal.reason }
    else signal
  else signal

/-- The fields of the `entry_analysis` dict that
`AdvancedEntrySystem.get_optimal_entry_size` reads (`risk_reward` is the
source's `risk_reward_ratio`). -/
structure EntryAnalysis where
  quality_score : ℚ
  risk_reward : ℚ
deriving DecidableEq, Repr

/-- The quality multiplier `0.5 + quality_score / 100` of
`get_optimal_entry_size`. -/
def quality_size_multiplier (quality_score : ℚ) : ℚ :=
  1/2 + quality_score / 100

/-- The risk-reward multiplier `min(0.8 + (rr - 1) * 0.2, 1.3)` of
`get_optimal_entry_size`. -/
def rr_size_multiplier (risk_reward : ℚ) : ℚ :=
  min (4/5 + (risk_reward - 1) * (1/5)) (13/10)

/-- Position sizing `AdvancedEntrySystem.get_optimal_entry_size`
(`analysis/advanced_entry_system.py`): base size scaled by the quality and
risk-reward multipliers, clamped to `[0.6, 1.8]` times the base size. -/
def get_optimal_entry_size (e : EntryAnalysis) (base_size : ℚ) : ℚ :=
  let optimal_size := base_size * quality_size_multiplier e.quality_score *
    rr_size_multiplier e.risk_reward
  max (min optimal_size (base_size * (9/5))) (base_size * (3/5))

/-- Position tracking state (`core/position/execution/order_executor.py`,
`PositionTracker`): positions per symbol, the bounded removal history (a
removed position is stored with its removal reason) and the concurrency
cap. -/
structure PositionTracker (α : Type) where
  positions : List (String × α)
  position_history : List (α × String)
  max_concurrent : ℕ

/-- Untracked-symbol-safe removal `PositionTracker.remove_position`: pops the
position (annotated with the removal reason) into the history, trimming the
history to its last 100 entries; for an untracked symbol it returns `None`
and changes nothing. -/
def remove_position {α : Type} (t : PositionTracker α) (symbol : String)
    (reason : String) : Option (α × String) × PositionTracker α :=
  match t.positions.lookup symbol with
  | none => (none, t)
  | some d =>
    let removed := (d, reason)
    let history := t.position_history ++ [removed]
    let history :=
      if 100 < history.length then history.drop (history.length - 100)
      else history
    (some removed,
      ⟨alistErase t.positions symbol, history, t.max_concurrent⟩)

/-- The "no position" outcome reported when closing an untracked symbol. -/
def no_position_error : String := "no position"

/-- The side label carried by a closing trade record. -/
def close_side : String := "close"

/-- Result dict of the order gateway's `close_position`
(normalized shape `{'success': bool, 'trade': ..., 'error': ...}`). -/
structure CloseResult where
  success : Bool
  trade : Option Trade
  error : Option String
deriving DecidableEq, Repr

/-- Modelled from the spec: the production `PositionManager.close_position`
itself (`core/managers/position_manager.py`) is not among the provided
sources — only its callers (`core/bot_integrated.py`,
`core/bot/trading_bot.py`) and the `PositionManagerAdapter` dispatch layer
are.  Following the spec's Order Gateway contract and round-trip property
(close on a symbol with no open Position must not create a Position, must
leave the positions map unchanged and must report a clear "no position"
outcome; a successful close removes the position and returns the trade
record with its realized PnL). -/
def pm_close_position (positions : List (String × FuturesPosition))
    (symbol : String) (price : ℚ) :
    CloseResult × List (String × FuturesPosition) :=
  match positions.lookup symbol with
  | none => (⟨false, none, some no_position_error⟩, positions)
  | some p =>
    let pnl :=
      if p.side = PositionSide.long then (price - p.entry_price) * p.size
      else (p.entry_price - price) * p.size
    (⟨true, some ⟨pnl, some symbol, close_side⟩, none⟩,
      alistErase positions symbol)

/-- The full-exit flow `FuturesBotIntegrated._execute_exit`
(`core/bot_integrated.py`): call the gateway's `close_position`; only on a
successful close are the risk statistics updated with the returned trade. -/
def execute_exit (cfg : RiskConfig) (today : ℤ)
    (positions : List (String × FuturesPosition)) (symbol : String)
    (price : ℚ) (risk : RMState) :
    List (String × FuturesPosition) × RMState × CloseResult :=
  let r := pm_close_position positions symbol price
  let result := r.1
  let positions := r.2
  if result.success then
    match result.trade with
    | some trade => (positions, update_statistics cfg today trade risk, result)
    | none => (positions, risk, result)
  else (positions, risk, result)

/-! ## Example inputs used by the claim theorems -/

/-- Symbol used in the stop-loss scenario. -/
def c4_symbol : String := "BTC-USDT"

/-- The long position of the stop-loss scenario: entry price 100, size 1. -/
def c4_position : FuturesPosition :=
  ⟨c4_symbol, PositionSide.long, 1, 100⟩

/-- The indicator snapshot of the strong-long scenario: RSI 18 with 3-bar
average 22 and rising, MACD bullish with rising histogram 0.05 and 3-bar
average 0.03, EMA trend strong bullish with price above the short EMA,
Bollinger oversold at position 0.10 with band width 3 %, momentum 2 %
(bullish and strong). -/
def c6_ind : Indicators :=
  ⟨some 18, some 22, some true, some (1/20), some (3/100), some true,
    some true, some false, some true, some true,
    some EmaTrend.strong_bullish, some true, some true, some false,
    some (1/10), some 3, some 2, some true, some false, some true, 0⟩

/-- An indicator snapshot with every scorer-relevant key absent and eight
other keys present (so the size guard passes). -/
def c1_ind : Indicators :=
  ⟨none, none, none, none, none, none, none, none, none, none, none, none,
    none, none, none, none, none, none, none, none, 8⟩

/-- C2 counterexample state: three consecutive losses recorded, kill switch
not yet triggered, but the daily trade count already at the cap of 30. -/
def c2_state : RMState :=
  ⟨⟨30, 0, 0, 33, 15, 18, 0, 0, 3, 3, 0, 0, 0⟩, 0, 30, 0, false, []⟩

/-- C2 witness state: three consecutive losses, all daily caps clear. -/
def c2w_state : RMState :=
  ⟨⟨0, -3, 0, 3, 0, 3, 0, -1, 3, 3, 0, 0, 0⟩, 0, 0, 0, false, []⟩

/-- C3 witness: an already-triggered state. -/
def c3_state : RMState :=
  ⟨initialStatistics, 0, 5, -2, true, []⟩

/-- Trade-side payload of the C3 witness. -/
def c3_side : String := ""

/-- Cycle operations exercised by the C3 witness. -/
def c3_ops : List CycleOp :=
  [CycleOp.can_open 1, CycleOp.daily_reset 2,
    CycleOp.update_stats 2 ⟨-1, none, c3_side⟩]

/-- Trade-side payload of the C10 witness. -/
def c10_side : String := ""

/-- Trade record of the C10 witness: PnL exactly zero. -/
def c10_trade : Trade :=
  ⟨0, none, c10_side⟩

/-- Recognizer for a trailing-stop exit result. -/
def isTrailingExit : Option ExitReason → Bool
  | some (ExitReason.trailing_stop _) => true
  | _ => false

/-- Symbol of the C8 example. -/
def c8_symbol : String := "BTC-USDT"

/-- Long position of the C8 example: entry price 100. -/
def c8_position : FuturesPosition :=
  ⟨c8_symbol, PositionSide.long, 1, 100⟩

/-- Risk state of the C8 example: trailing reference 100 tracked for the
symbol. -/
def c8_state : RMState :=
  ⟨initialStatistics, 0, 0, 0, false, [(c8_symbol, 100)]⟩

/-- Raw short signal of the C7 witness. -/
def c7_signal : Signal :=
  ⟨Action.short, SignalStrength.neutral, 7/10, Reason.entry_reasons⟩

/-- Regime assessment of the C7 witness: strong up-trend. -/
def c7_regime : RegimeAnalysis :=
  ⟨MarketRegime.trending_up, 7/10, 7/10⟩

/-- Empty indicator snapshot of the C7 witness. -/
def c7_ind : Indicators :=
  ⟨none, none, none, none, none, none, none, none, none, none, none, none,
    none, none, none, none, none, none, none, none, 0⟩

/-- Entry analysis of the C9 witness: quality 80, risk-reward 2. -/
def c9_entry : EntryAnalysis := ⟨80, 2⟩

/-- Symbol of the C5 witness. -/
def c5_symbol : String := "BTC-USDT"

/-! ## Theorems about the claims -/

/-- C4: for a long position opened at entry price 100 with the default
stop-loss of 2 % enabled and no trailing reference tracked,
`check_exit_conditions` at price 97.9 (PnL −2.1 %) returns the stop-loss
exit reason, and at price 99.0 (PnL −1.0 %) returns no exit at all (in
particular no stop-loss exit). -/
theorem C4_stop_loss_scenario :
    (check_exit_conditions defaultRiskConfig c4_position (979/10)
      (initialRMState 0)).1 = some (ExitReason.stop_loss (-(21/10))) ∧
    (check_exit_conditions defaultRiskConfig c4_position 99
      (initialRMState 0)).1 = none := by
  constructor <;>
    norm_num [check_exit_conditions, c4_position, c4_symbol, defaultRiskConfig,
      initialRMState, initialStatistics, List.lookup, update_trailing_stop]

/-- C6: on the scenario snapshot the long score is 19 (RSI 5 + MACD 4 +
EMA 4 + BB 3 + momentum 3), hence at least 12, and with the default
configuration (min score 4.0, margin 1.0) `generate_trading_signal`
emits action `long` with strength `very_strong`. -/
theorem C6_strong_long_scenario :
    long_score c6_ind = 19 ∧
    (12:ℚ) ≤ long_score c6_ind ∧
    rsi_points_long c6_ind = 5 ∧ macd_points_long c6_ind = 4 ∧
    ema_points_long c6_ind = 4 ∧ bb_points_long c6_ind = 3 ∧
    momentum_points_long c6_ind = 3 ∧
    (generate_trading_signal defaultTAConfig ⟨none, none, 0⟩ 0 c6_ind
      none).1.action = Action.long ∧
    (generate_trading_signal defaultTAConfig ⟨none, none, 0⟩ 0 c6_ind
      none).1.strength = SignalStrength.very_strong := by
  refine ⟨?_, ?_, ?_, ?_, ?_, ?_, ?_, ?_, ?_⟩ <;>
    norm_num +decide [generate_trading_signal, entry_decision, warmup_active,
      cooldown_active, Indicators.numKeys, keyCount, long_score, short_score,
      rsi_points_long, macd_points_long, ema_points_long, bb_points_long,
      momentum_points_long, rsi_points_short, macd_points_short,
      ema_points_short, bb_points_short, momentum_points_short,
      strength_of_score, entry_confidence, c6_ind, defaultTAConfig]

/-- With the guards passed and no open position, `generate_trading_signal`
returns exactly the scored entry decision. -/
lemma generate_fst (cfg : TAConfig) (st : ScorerState) (now : ℚ)
    (ind : Indicators) (h8 : ¬ ind.numKeys < 8)
    (hw : warmup_active cfg st now = false)
    (hc : cooldown_active cfg st now = false) :
    (generate_trading_signal cfg st now ind none).1 =
      entry_decision cfg ind (long_score ind) (short_score ind) := by
  unfold generate_trading_signal
  simp only [h8, hw, hc, if_false, Bool.false_eq_true, ite_false]
  split <;> rfl

/-- Under the default configuration the contradiction filter is skipped and
the entry decision is the pure two-sided threshold-and-margin test. -/
lemma entry_decision_default (ind : Indicators) (ls ss : ℚ) :
    entry_decision defaultTAConfig ind ls ss =
      if ls ≥ 4 ∧ ls > ss + 1 then
        ⟨Action.long, strength_of_score ls, entry_confidence ls,
          Reason.entry_reasons⟩
      else if ss ≥ 4 ∧ ss > ls + 1 then
        ⟨Action.short, strength_of_score ss, entry_confidence ss,
          Reason.entry_reasons⟩
      else
        ⟨Action.hold, SignalStrength.neutral, 0,
          Reason.waiting_stronger ls ss⟩ := by
  unfold entry_decision defaultTAConfig
  norm_num

/-- C1: with the default configuration (contradiction filter off), outside
the warm-up and cooldown windows and with no open position,
`generate_trading_signal` emits `long` (resp. `short`) exactly when that
side's score is at least the minimum 4.0 and exceeds the other side's score
by more than the margin 1.0; otherwise it holds with a reason naming both
scores.  In particular the decision block at long-score 4.5 and short-score
5.0 yields `hold` even though the short score clears its own minimum. -/
theorem C1_score_margin_gate (st : ScorerState) (now : ℚ) (ind : Indicators)
    (h8 : ¬ ind.numKeys < 8)
    (hw : warmup_active defaultTAConfig st now = false)
    (hc : cooldown_active defaultTAConfig st now = false) :
    ((generate_trading_signal defaultTAConfig st now ind none).1.action =
        Action.long ↔
      long_score ind ≥ 4 ∧ long_score ind > short_score ind + 1) ∧
    ((generate_trading_signal defaultTAConfig st now ind none).1.action =
        Action.short ↔
      short_score ind ≥ 4 ∧ short_score ind > long_score ind + 1) ∧
    ((generate_trading_signal defaultTAConfig st now ind none).1.action =
        Action.hold →
      (generate_trading_signal defaultTAConfig st now ind none).1.reason =
        Reason.waiting_stronger (long_score ind) (short_score ind)) ∧
    (∀ ind2 : Indicators,
      (entry_decision defaultTAConfig ind2 (9/2) 5).action = Action.hold ∧
      (entry_decision defaultTAConfig ind2 (9/2) 5).reason =
        Reason.waiting_stronger (9/2) 5) := by
  have hgen := generate_fst defaultTAConfig st now ind h8 hw hc
  rw [hgen, entry_decision_default]
  have hscenario : ∀ ind2 : Indicators,
      (entry_decision defaultTAConfig ind2 (9/2) 5).action = Action.hold ∧
      (entry_decision defaultTAConfig ind2 (9/2) 5).reason =
        Reason.waiting_stronger (9/2) 5 := by
    intro ind2
    rw [entry_decision_default]
    norm_num
  by_cases h1 : long_score ind ≥ 4 ∧ long_score ind > short_score ind + 1
  · have h2 : ¬ (short_score ind ≥ 4 ∧
        short_score ind > long_score ind + 1) := by
      rintro ⟨-, hb⟩
      rcases h1 with ⟨-, ha⟩
      linarith
    simp only [h1, h2, if_true, if_false, ite_true, ite_false]
    refine ⟨by simp [h1], by simp [h2], by simp, hscenario⟩
  · by_cases h2 : short_score ind ≥ 4 ∧
        short_score ind > long_score ind + 1
    · simp only [h1, h2, if_true, if_false, ite_true, ite_false]
      refine ⟨by simp [h1], by simp [h2], by simp, hscenario⟩
    · simp only [h1, h2, if_true, if_false, ite_true, ite_false]
      refine ⟨by simp [h1], by simp [h2], by simp, hscenario⟩

/-- Witness for C1 at a concrete snapshot, state and clock. -/
theorem C1_score_margin_gate_witness :
    ((generate_trading_signal defaultTAConfig ⟨none, none, 0⟩ 0 c1_ind
        none).1.action = Action.long ↔
      long_score c1_ind ≥ 4 ∧ long_score c1_ind > short_score c1_ind + 1) ∧
    ((generate_trading_signal defaultTAConfig ⟨none, none, 0⟩ 0 c1_ind
        none).1.action = Action.short ↔
      short_score c1_ind ≥ 4 ∧ short_score c1_ind > long_score c1_ind + 1) ∧
    ((entry_decision defaultTAConfig c1_ind (9/2) 5).action =
      Action.hold) :=
  ⟨(C1_score_margin_gate ⟨none, none, 0⟩ 0 c1_ind (by decide) (by decide)
      (by decide)).1,
    (C1_score_margin_gate ⟨none, none, 0⟩ 0 c1_ind (by decide) (by decide)
      (by decide)).2.1,
    ((C1_score_margin_gate ⟨none, none, 0⟩ 0 c1_ind (by decide) (by decide)
      (by decide)).2.2.2 c1_ind).1⟩

/-- The daily rollover never changes the kill-switch flag. -/
lemma reset_daily_kill (today : ℤ) (s : RMState) :
    (reset_daily_stats_if_needed today s).kill_switch_triggered =
      s.kill_switch_triggered := by
  unfold reset_daily_stats_if_needed
  split <;> rfl

/-- The daily rollover never changes the win, loss and consecutive-loss
counters. -/
lemma reset_daily_wlc (today : ℤ) (s : RMState) :
    (reset_daily_stats_if_needed today s).stats.wins = s.stats.wins ∧
    (reset_daily_stats_if_needed today s).stats.losses = s.stats.losses ∧
    (reset_daily_stats_if_needed today s).stats.consecutive_losses =
      s.stats.consecutive_losses := by
  unfold reset_daily_stats_if_needed
  split <;> exact ⟨rfl, rfl, rfl⟩

/-- Updating the trailing reference never changes the kill-switch flag. -/
lemma update_trailing_kill (cfg : RiskConfig) (symbol : String) (price : ℚ)
    (side : PositionSide) (s : RMState) :
    (update_trailing_stop cfg symbol price side s).kill_switch_triggered =
      s.kill_switch_triggered := by
  unfold update_trailing_stop
  repeat' split <;> try rfl

/-- The exit check never changes the kill-switch flag. -/
lemma check_exit_kill (cfg : RiskConfig) (position : FuturesPosition)
    (price : ℚ) (s : RMState) :
    ((check_exit_conditions cfg position price s).2).kill_switch_triggered =
      s.kill_switch_triggered := by
  unfold check_exit_conditions
  dsimp only
  repeat' split
  all_goals first | rfl | exact update_trailing_kill ..

/-- The kill-switch re-check keeps the flag set. -/
lemma check_kill_mono (cfg : RiskConfig) (s : RMState)
    (h : s.kill_switch_triggered = true) :
    (check_kill_switch_conditions cfg s).kill_switch_triggered = true := by
  unfold check_kill_switch_conditions
  simp [h]

/-- The kill-switch re-check never changes the statistics dict. -/
lemma check_kill_stats (cfg : RiskConfig) (s : RMState) :
    (check_kill_switch_conditions cfg s).stats = s.stats := by
  unfold check_kill_switch_conditions trigger_kill_switch
  dsimp only
  repeat' split
  all_goals rfl

/-- The entry gate keeps the kill-switch flag set. -/
lemma can_open_kill (cfg : RiskConfig) (today : ℤ) (s : RMState)
    (h : s.kill_switch_triggered = true) :
    ((can_open_position cfg today s).2).kill_switch_triggered = true := by
  unfold can_open_position
  have hr := reset_daily_kill today s
  rw [h] at hr
  simp [hr, trigger_kill_switch]

/-- The statistics update keeps the kill-switch flag set. -/
lemma update_stats_kill (cfg : RiskConfig) (today : ℤ) (trade : Trade)
    (s : RMState) (h : s.kill_switch_triggered = true) :
    (update_statistics cfg today trade s).kill_switch_triggered = true := by
  unfold update_statistics
  apply check_kill_mono
  have hr := reset_daily_kill today s
  rw [h] at hr
  simpa using hr

/-- C2 counterexample: in `c2_state` the consecutive-loss counter has
reached the default kill-switch threshold, the next `can_open_position`
returns false — but because the daily-trade-cap branch fires first, the
kill switch is NOT triggered and `is_kill_switch_active` afterwards still
reads false, contradicting the claim's unconditional "afterwards
is_kill_switch_active() returns true". -/
theorem C2_counterexample :
    c2_state.stats.consecutive_losses =
      defaultRiskConfig.kill_switch_consecutive ∧
    c2_state.kill_switch_triggered = false ∧
    (can_open_position defaultRiskConfig 0 c2_state).1 = false ∧
    is_kill_switch_active
      (can_open_position defaultRiskConfig 0 c2_state).2 = false := by
  refine ⟨rfl, rfl, ?_, ?_⟩ <;>
    norm_num [can_open_position, reset_daily_stats_if_needed, c2_state,
      defaultRiskConfig, is_kill_switch_active]

/-- C2 (amended): whenever the consecutive-loss counter (after any daily
rollover) has reached the configured kill-switch threshold, the very next
`can_open_position` returns false — unconditionally, whichever gate fires;
and provided the daily-trade and daily-loss caps have not already been hit,
the kill switch is triggered as a side effect, so `is_kill_switch_active`
afterwards returns true. -/
theorem C2_consecutive_loss_gate (cfg : RiskConfig) (today : ℤ) (s : RMState)
    (h1 : (reset_daily_stats_if_needed today s).stats.consecutive_losses ≥
      cfg.kill_switch_consecutive) :
    (can_open_position cfg today s).1 = false ∧
    ((reset_daily_stats_if_needed today s).daily_trade_count <
        cfg.max_daily_trades →
      ¬ (|(reset_daily_stats_if_needed today s).daily_pnl| ≥
          cfg.max_daily_loss ∧
        (reset_daily_stats_if_needed today s).daily_pnl < 0) →
      is_kill_switch_active (can_open_position cfg today s).2 = true) := by
  unfold can_open_position
  by_cases hk :
      (reset_daily_stats_if_needed today s).kill_switch_triggered
  · simp [hk, is_kill_switch_active]
  · by_cases hd : (reset_daily_stats_if_needed today s).daily_trade_count ≥
        cfg.max_daily_trades
    · refine ⟨by simp [hk, hd], ?_⟩
      intro h2
      exact absurd hd (not_le.mpr h2)
    · by_cases hl : |(reset_daily_stats_if_needed today s).daily_pnl| ≥
          cfg.max_daily_loss ∧
        (reset_daily_stats_if_needed today s).daily_pnl < 0
      · refine ⟨by simp [hk, hd, hl], ?_⟩
        intro h2 h3
        exact absurd hl h3
      · refine ⟨?_, ?_⟩ <;>
          simp [hk, hd, hl, h1, is_kill_switch_active, trigger_kill_switch]

/-- Witness for the amended C2 at a concrete state. -/
theorem C2_consecutive_loss_gate_witness :
    (can_open_position defaultRiskConfig 0 c2w_state).1 = false ∧
    is_kill_switch_active
      (can_open_position defaultRiskConfig 0 c2w_state).2 = true :=
  ⟨(C2_consecutive_loss_gate defaultRiskConfig 0 c2w_state
      (by norm_num [reset_daily_stats_if_needed, c2w_state,
        defaultRiskConfig])).1,
    (C2_consecutive_loss_gate defaultRiskConfig 0 c2w_state
      (by norm_num [reset_daily_stats_if_needed, c2w_state,
        defaultRiskConfig])).2
      (by norm_num [reset_daily_stats_if_needed, c2w_state,
        defaultRiskConfig])
      (by norm_num [reset_daily_stats_if_needed, c2w_state,
        defaultRiskConfig])⟩

/-- C3: once the kill switch is active, no sequence of normal-cycle
operations (`can_open_position`, `update_statistics`,
`check_exit_conditions`, the daily rollover) ever clears it; a daily
rollover to a later date resets the daily trade count and daily PnL while
leaving the flag set; and the explicit external `reset_kill_switch` is what
clears it. -/
theorem C3_kill_switch_persistence (cfg : RiskConfig) (s : RMState)
    (h : is_kill_switch_active s = true) :
    (∀ ops : List CycleOp,
      is_kill_switch_active (applyCycleOps cfg ops s) = true) ∧
    (∀ today : ℤ, today > s.last_reset_date →
      (reset_daily_stats_if_needed today s).daily_trade_count = 0 ∧
      (reset_daily_stats_if_needed today s).daily_pnl = 0 ∧
      is_kill_switch_active (reset_daily_stats_if_needed today s) = true) ∧
    is_kill_switch_active (reset_kill_switch s) = false := by
  refine ⟨?_, ?_, rfl⟩
  · suffices H : ∀ (ops : List CycleOp) (t : RMState),
        t.kill_switch_triggered = true →
        (applyCycleOps cfg ops t).kill_switch_triggered = true by
      intro ops
      exact H ops s h
    intro ops
    induction ops with
    | nil => intro t ht; exact ht
    | cons op rest ih =>
      intro t ht
      have hop : (applyCycleOp cfg t op).kill_switch_triggered = true := by
        cases op with
        | can_open today => exact can_open_kill cfg today t ht
        | update_stats today trade =>
          exact update_stats_kill cfg today trade t ht
        | check_exit position price =>
          simp only [applyCycleOp]
          rw [check_exit_kill]
          exact ht
        | daily_reset today =>
          simp only [applyCycleOp]
          rw [reset_daily_kill]
          exact ht
      simpa [applyCycleOps, List.foldl] using ih _ hop
  · intro today htoday
    unfold reset_daily_stats_if_needed
    rw [if_pos htoday]
    exact ⟨rfl, rfl, h⟩

/-- Witness for C3 at a concrete state and operation sequence. -/
theorem C3_kill_switch_persistence_witness :
    is_kill_switch_active c3_state = true ∧
    is_kill_switch_active
      (applyCycleOps defaultRiskConfig c3_ops c3_state) = true :=
  ⟨rfl, (C3_kill_switch_persistence defaultRiskConfig c3_state rfl).1 c3_ops⟩

/-- C10: `update_statistics` counts a trade with PnL exactly 0 as a loss —
it increments the loss count and the consecutive-loss counter and leaves
the win count unchanged — while only a strictly positive PnL counts as a
win and resets the consecutive-loss counter to 0. -/
theorem C10_zero_pnl_counts_as_loss (cfg : RiskConfig) (today : ℤ)
    (trade : Trade) (s : RMState) :
    (trade.pnl = 0 →
      (update_statistics cfg today trade s).stats.losses =
        s.stats.losses + 1 ∧
      (update_statistics cfg today trade s).stats.consecutive_losses =
        s.stats.consecutive_losses + 1 ∧
      (update_statistics cfg today trade s).stats.wins = s.stats.wins) ∧
    (0 < trade.pnl →
      (update_statistics cfg today trade s).stats.wins = s.stats.wins + 1 ∧
      (update_statistics cfg today trade s).stats.consecutive_losses = 0 ∧
      (update_statistics cfg today trade s).stats.losses =
        s.stats.losses) := by
  obtain ⟨hw, hl, hc⟩ := reset_daily_wlc today s
  constructor
  · intro h0
    unfold update_statistics
    rw [check_kill_stats]
    simp only [h0]
    norm_num [apply_ite RiskStatistics.losses,
      apply_ite RiskStatistics.consecutive_losses,
      apply_ite RiskStatistics.wins, hw, hl, hc]
  · intro hpos
    unfold update_statistics
    rw [check_kill_stats]
    have h1 : ¬ trade.pnl < 0 := not_lt.mpr (le_of_lt hpos)
    simp only [if_pos hpos, if_neg h1]
    norm_num [hpos, h1, apply_ite RiskStatistics.losses,
      apply_ite RiskStatistics.consecutive_losses,
      apply_ite RiskStatistics.wins, hw, hl, hc]

/-- Witness for C10: a zero-PnL trade against a fresh risk state. -/
theorem C10_zero_pnl_counts_as_loss_witness :
    (update_statistics defaultRiskConfig 0 c10_trade
      (initialRMState 0)).stats.losses =
      (initialRMState 0).stats.losses + 1 ∧
    (update_statistics defaultRiskConfig 0 c10_trade
      (initialRMState 0)).stats.consecutive_losses =
      (initialRMState 0).stats.consecutive_losses + 1 ∧
    (update_statistics defaultRiskConfig 0 c10_trade
      (initialRMState 0)).stats.wins = (initialRMState 0).stats.wins :=
  (C10_zero_pnl_counts_as_loss defaultRiskConfig 0 c10_trade
    (initialRMState 0)).1 rfl

/-- Looking up the key just written into an association list. -/
lemma lookup_alistSet {α : Type} (l : List (String × α)) (k : String)
    (v : α) : (alistSet l k v).lookup k = some v := by
  induction l with
  | nil => simp [alistSet, List.lookup]
  | cons hd t ih =>
    obtain ⟨k0, v0⟩ := hd
    unfold alistSet
    by_cases hk : k0 = k
    · simp [hk, List.lookup]
    · have hk2 : ¬ (k = k0) := fun h => hk h.symm
      have hbeq : (k == k0) = false := beq_eq_false_iff_ne.mpr hk2
      simp [hk, hbeq, List.lookup, ih]

/-- C8 (amended): with trailing enabled, for a tracked symbol the stored
reference moves only in the favorable direction — after an update it is the
maximum of the old reference and the current price for a long position and
the minimum for a short one — and `check_exit_conditions` returns a
trailing-stop exit exactly when the stop loss has not fired first (stop loss
is checked with priority) and the price has retreated from the reference by
at least (not strictly more than) the configured trailing percentage. -/
theorem C8_trailing_stop_behavior (cfg : RiskConfig)
    (ht : cfg.trailing_enabled = true) :
    (∀ (symbol : String) (price best : ℚ) (s : RMState),
      s.trailing_stops.lookup symbol = some best →
      (update_trailing_stop cfg symbol price PositionSide.long
          s).trailing_stops.lookup symbol = some (max best price) ∧
      (update_trailing_stop cfg symbol price PositionSide.short
          s).trailing_stops.lookup symbol = some (min best price)) ∧
    (∀ (position : FuturesPosition) (price best : ℚ) (s : RMState),
      s.trailing_stops.lookup position.symbol = some best →
      (isTrailingExit
          (check_exit_conditions cfg position price s).1 = true ↔
        (¬ (cfg.stop_loss_enabled = true ∧
            (if position.side = PositionSide.long then
              (price - position.entry_price) / position.entry_price * 100
            else
              (position.entry_price - price) / position.entry_price * 100) ≤
              -cfg.stop_loss_pct) ∧
          (if position.side = PositionSide.long then
            (price - best) / best * 100
          else (best - price) / best * 100) ≤ -cfg.trailing_pct))) := by
  have hside : ¬ (PositionSide.short = PositionSide.long) := by decide
  constructor
  · intro symbol price best s hb
    constructor
    · unfold update_trailing_stop
      by_cases hgt : price > best
      · simp [ht, hb, hgt, lookup_alistSet, max_eq_right (le_of_lt hgt)]
      · simp [ht, hb, hgt, max_eq_left (not_lt.mp hgt)]
    · unfold update_trailing_stop
      by_cases hlt : price < best
      · simp [ht, hb, hlt, hside, lookup_alistSet,
          min_eq_right (le_of_lt hlt)]
      · simp [ht, hb, hlt, hside, min_eq_left (not_lt.mp hlt)]
  · intro position price best s hb
    unfold check_exit_conditions
    dsimp only
    by_cases hsl : cfg.stop_loss_enabled = true ∧
        (if position.side = PositionSide.long then
          (price - position.entry_price) / position.entry_price * 100
        else
          (position.entry_price - price) / position.entry_price * 100) ≤
          -cfg.stop_loss_pct
    · rw [if_pos hsl]
      simp [isTrailingExit, hsl]
    · rw [if_neg hsl]
      by_cases htr :
          (if position.side = PositionSide.long then
            (price - best) / best * 100
          else (best - price) / best * 100) ≤ -cfg.trailing_pct
      · simp [ht, hb, htr, isTrailingExit, hsl]
      · apply iff_of_false
        · simp only [ht, hb, htr, eq_self_iff_true, if_true, ite_true,
            if_false, ite_false]
          intro hres
          revert hres
          repeat' split
          all_goals simp [isTrailingExit]
        · rintro ⟨-, hc⟩
          exact htr hc

/-- C8 counterexample: at price 99.5 the retracement from the best price 100
is exactly the configured 0.5 % — it does NOT strictly exceed it — yet
`check_exit_conditions` already returns a trailing-stop exit (the code
triggers at `trailing_pnl <= -trailing_pct`), refuting the claim's "exactly
when the retracement ... exceeds the configured percentage". -/
theorem C8_counterexample :
    (100 - 199/2) / 100 * 100 = defaultRiskConfig.trailing_pct ∧
    ¬ ((100 - 199/2) / 100 * 100 > defaultRiskConfig.trailing_pct) ∧
    (check_exit_conditions defaultRiskConfig c8_position (199/2)
      c8_state).1 = some (ExitReason.trailing_stop (-(1/2))) := by
  refine ⟨?_, ?_, ?_⟩ <;>
    norm_num [check_exit_conditions, c8_position, c8_symbol, c8_state,
      defaultRiskConfig, initialStatistics, List.lookup]

/-- Witness for the amended C8: reference updates at price 101 (long) and
the boundary trailing exit at price 99.5. -/
theorem C8_trailing_stop_behavior_witness :
    ((update_trailing_stop defaultRiskConfig c8_symbol 101 PositionSide.long
        c8_state).trailing_stops.lookup c8_symbol = some (max 100 101) ∧
      (update_trailing_stop defaultRiskConfig c8_symbol 101
        PositionSide.short c8_state).trailing_stops.lookup c8_symbol =
        some (min 100 101)) ∧
    (isTrailingExit
        (check_exit_conditions defaultRiskConfig c8_position (199/2)
          c8_state).1 = true ↔
      (¬ (defaultRiskConfig.stop_loss_enabled = true ∧
          (if c8_position.side = PositionSide.long then
            ((199:ℚ)/2 - c8_position.entry_price) /
              c8_position.entry_price * 100
          else
            (c8_position.entry_price - 199/2) /
              c8_position.entry_price * 100) ≤
            -defaultRiskConfig.stop_loss_pct) ∧
        (if c8_position.side = PositionSide.long then
          ((199:ℚ)/2 - 100) / 100 * 100
        else (100 - 199/2) / 100 * 100) ≤
          -defaultRiskConfig.trailing_pct)) :=
  ⟨(C8_trailing_stop_behavior defaultRiskConfig rfl).1 c8_symbol 101 100
      c8_state (by norm_num [c8_state, c8_symbol, List.lookup]),
    (C8_trailing_stop_behavior defaultRiskConfig rfl).2 c8_position (199/2)
      100 c8_state (by norm_num [c8_state, c8_position, c8_symbol,
        List.lookup])⟩

/-- C7: for every non-hold raw signal, the regime filter forces `hold` on a
short signal during a strong up-trend (strength above 0.6) and on a long
signal during a strong down-trend, and leaves trend-aligned signals
entirely unmodified in trending regimes. -/
theorem C7_counter_trend_rejection (min_confidence : ℚ) (signal : Signal)
    (regime : RegimeAnalysis) (ind : Indicators)
    (hnh : signal.action ≠ Action.hold) :
    (regime.primary_regime = MarketRegime.trending_up →
      signal.action = Action.short → regime.trend_strength > 3/5 →
      (apply_regime_filters min_confidence signal regime ind).action =
        Action.hold) ∧
    (regime.primary_regime = MarketRegime.trending_down →
      signal.action = Action.long → regime.trend_strength > 3/5 →
      (apply_regime_filters min_confidence signal regime ind).action =
        Action.hold) ∧
    (regime.primary_regime = MarketRegime.trending_up →
      signal.action = Action.long →
      apply_regime_filters min_confidence signal regime ind = signal) ∧
    (regime.primary_regime = MarketRegime.trending_down →
      signal.action = Action.short →
      apply_regime_filters min_confidence signal regime ind = signal) := by
  refine ⟨?_, ?_, ?_, ?_⟩
  · intro hr ha hs
    unfold apply_regime_filters
    simp +decide [hr, ha, hs, hnh]
  · intro hr ha hs
    unfold apply_regime_filters
    simp +decide [hr, ha, hs, hnh]
  · intro hr ha
    unfold apply_regime_filters
    simp +decide [hr, ha, hnh]
  · intro hr ha
    unfold apply_regime_filters
    simp +decide [hr, ha, hnh]

/-- Witness for C7: a short signal in a strong up-trend is forced to hold. -/
theorem C7_counter_trend_rejection_witness :
    (apply_regime_filters (11/20) c7_signal c7_regime c7_ind).action =
      Action.hold :=
  (C7_counter_trend_rejection (11/20) c7_signal c7_regime c7_ind
    (by decide)).1 rfl rfl (by norm_num [c7_regime])

/-- C9 counterexample: at risk-reward 0 (legitimate under the claim's "any
non-negative risk-reward ratio") the risk-reward multiplier evaluates to
0.6, outside the claimed range [0.8, 1.3]. -/
theorem C9_counterexample :
    rr_size_multiplier 0 = 3/5 ∧
    ¬ ((4:ℚ)/5 ≤ rr_size_multiplier 0 ∧
      rr_size_multiplier 0 ≤ 13/10) ∧
    get_optimal_entry_size ⟨50, 0⟩ 1 = 3/5 := by
  refine ⟨?_, ?_, ?_⟩ <;>
    norm_num [rr_size_multiplier, quality_size_multiplier,
      get_optimal_entry_size, min_def, max_def]

/-- C9 (amended): the quality multiplier `0.5 + quality/100` lies in
[0.5, 1.5] for quality in [0, 100]; the risk-reward multiplier
`min(0.8 + (rr − 1)·0.2, 1.3)` is at most 1.3 and at least 0.8 whenever the
risk-reward ratio is at least 1 (it drops below 0.8 for ratios below 1);
and the returned size always lies within [0.6×, 1.8×] of the
(non-negative) base size thanks to the final clamp. -/
theorem C9_entry_size_bounds (e : EntryAnalysis) (base_size : ℚ)
    (hq0 : 0 ≤ e.quality_score) (hq1 : e.quality_score ≤ 100)
    (hrr : 0 ≤ e.risk_reward) (hb : 0 ≤ base_size) :
    (1/2 ≤ quality_size_multiplier e.quality_score ∧
      quality_size_multiplier e.quality_score ≤ 3/2) ∧
    rr_size_multiplier e.risk_reward ≤ 13/10 ∧
    (1 ≤ e.risk_reward → 4/5 ≤ rr_size_multiplier e.risk_reward) ∧
    (base_size * (3/5) ≤ get_optimal_entry_size e base_size ∧
      get_optimal_entry_size e base_size ≤ base_size * (9/5)) := by
  refine ⟨⟨?_, ?_⟩, ?_, ?_, ?_, ?_⟩
  · unfold quality_size_multiplier
    linarith
  · unfold quality_size_multiplier
    linarith
  · unfold rr_size_multiplier
    exact min_le_right _ _
  · intro h1
    unfold rr_size_multiplier
    refine le_min (by linarith) (by norm_num)
  · unfold get_optimal_entry_size
    exact le_max_right _ _
  · unfold get_optimal_entry_size
    apply max_le
    · exact min_le_right _ _
    · exact mul_le_mul_of_nonneg_left (by norm_num) hb

/-- Witness for the amended C9 at quality 80, risk-reward 2, base size 1. -/
theorem C9_entry_size_bounds_witness :
    (1/2 ≤ quality_size_multiplier c9_entry.quality_score ∧
      quality_size_multiplier c9_entry.quality_score ≤ 3/2) ∧
    rr_size_multiplier c9_entry.risk_reward ≤ 13/10 ∧
    ((1:ℚ) * (3/5) ≤ get_optimal_entry_size c9_entry 1 ∧
      get_optimal_entry_size c9_entry 1 ≤ (1:ℚ) * (9/5)) :=
  ⟨(C9_entry_size_bounds c9_entry 1 (by norm_num [c9_entry])
      (by norm_num [c9_entry]) (by norm_num [c9_entry]) (by norm_num)).1,
    (C9_entry_size_bounds c9_entry 1 (by norm_num [c9_entry])
      (by norm_num [c9_entry]) (by norm_num [c9_entry]) (by norm_num)).2.1,
    (C9_entry_size_bounds c9_entry 1 (by norm_num [c9_entry])
      (by norm_num [c9_entry]) (by norm_num [c9_entry]) (by norm_num)).2.2.2⟩

/-- C5: closing a symbol with no tracked open position leaves the positions
map (so no position is ever created) and the entire risk state unchanged,
and reports the "no position" failure outcome; likewise
`PositionTracker.remove_position` on an untracked symbol returns `None` and
leaves the tracker untouched. -/
theorem C5_close_without_position (cfg : RiskConfig) (today : ℤ)
    (positions : List (String × FuturesPosition)) (symbol : String)
    (price : ℚ) (risk : RMState)
    (h : positions.lookup symbol = none) :
    (execute_exit cfg today positions symbol price risk).1 = positions ∧
    (execute_exit cfg today positions symbol price risk).2.1 = risk ∧
    (execute_exit cfg today positions symbol price risk).2.2.success =
      false ∧
    (execute_exit cfg today positions symbol price risk).2.2.trade = none ∧
    (execute_exit cfg today positions symbol price risk).2.2.error =
      some no_position_error ∧
    (∀ (α : Type) (t : PositionTracker α) (reason : String),
      t.positions.lookup symbol = none →
      (remove_position t symbol reason).1 = none ∧
      (remove_position t symbol reason).2 = t) := by
  refine ⟨?_, ?_, ?_, ?_, ?_, ?_⟩
  · unfold execute_exit pm_close_position
    simp [h]
  · unfold execute_exit pm_close_position
    simp [h]
  · unfold execute_exit pm_close_position
    simp [h]
  · unfold execute_exit pm_close_position
    simp [h]
  · unfold execute_exit pm_close_position
    simp [h]
  · intro α t reason h2
    unfold remove_position
    simp [h2]

/-- Witness for C5: closing on an empty positions map. -/
theorem C5_close_without_position_witness :
    (execute_exit defaultRiskConfig 0 [] c5_symbol 100
      (initialRMState 0)).1 = [] ∧
    (execute_exit defaultRiskConfig 0 [] c5_symbol 100
      (initialRMState 0)).2.1 = initialRMState 0 ∧
    (execute_exit defaultRiskConfig 0 [] c5_symbol 100
      (initialRMState 0)).2.2.success = false ∧
    (execute_exit defaultRiskConfig 0 [] c5_symbol 100
      (initialRMState 0)).2.2.error = some no_position_error :=
  ⟨(C5_close_without_position defaultRiskConfig 0 [] c5_symbol 100
      (initialRMState 0) rfl).1,
    (C5_close_without_position defaultRiskConfig 0 [] c5_symbol 100
      (initialRMState 0) rfl).2.1,
    (C5_close_without_position defaultRiskConfig 0 [] c5_symbol 100
      (initialRMState 0) rfl).2.2.1,
    (C5_close_without_position defaultRiskConfig 0 [] c5_symbol 100
      (initialRMState 0) rfl).2.2.2.2.1⟩

end BotBit
